import Mathlib

/-!
Shallow embedding of the Bluepunkt ESP32 outdoor-display driver
(`src/src/main.cpp`, plus the digit frame tables from the standalone
driver sketch).  Machine integers are modelled as `Int`/`Nat` (all values
involved are tiny), the parsed temperature as `ℚ` (the float arithmetic
here is only comparisons and storage of small decimal values).
-/

namespace Bluepunkt

/-- One 7-segment pattern: exactly the 7 booleans of one table row. -/
abbrev Seg := List Bool

/-- `frame1` digit table for display position 1 (indices 0–9 digits, 10 = NULL),
transcribed from the source table. -/
def frame1 : List Seg :=
  [ [true,  true,  true,  true,  true,  false, true ],
    [false, false, false, false, true,  false, true ],
    [true,  true,  false, true,  true,  true,  false],
    [true,  false, false, true,  true,  true,  true ],
    [false, false, true,  false, true,  true,  true ],
    [true,  false, true,  true,  false, true,  true ],
    [true,  true,  true,  true,  false, true,  true ],
    [false, false, false, true,  true,  false, true ],
    [true,  true,  true,  true,  true,  true,  true ],
    [true,  false, true,  true,  true,  true,  true ],
    [false, false, false, false, false, false, false] ]

/-- `frame2` digit table for display position 2 (indices 0–9 digits, 10 = NULL),
transcribed from the source table. -/
def frame2 : List Seg :=
  [ [true,  true,  true,  true,  false, true,  true ],
    [false, false, false, false, false, true,  true ],
    [true,  false, true,  true,  true,  true,  false],
    [false, false, true,  true,  true,  true,  true ],
    [false, true,  false, false, true,  true,  true ],
    [false, true,  true,  true,  true,  false, true ],
    [true,  true,  true,  true,  true,  false, true ],
    [false, false, true,  false, false, true,  true ],
    [true,  true,  true,  true,  true,  true,  true ],
    [false, true,  true,  true,  true,  true,  true ],
    [false, false, false, false, false, false, false] ]

/-- Index of the blank / NULL symbol in both tables (`DISPLAY_NULL_IDX`). -/
def DISPLAY_NULL_IDX : Nat := 10

/-- Index of the dedicated minus-sign glyph (`DISPLAY_SIGN_MINUS_IDX`).
Modelled from the spec: `outdoor_symbols.h` is not among the sources; the
spec reserves a dedicated minus-sign glyph right after the blank symbol,
before the animation block that the code addresses starting at index 12. -/
def DISPLAY_SIGN_MINUS_IDX : Nat := 11

/-- Minus glyph pattern for position 1. Modelled from the spec: a dedicated
minus-sign glyph, i.e. only the middle segment lit (the segment that
distinguishes `8` from `0` in `frame1`). -/
def minusGlyph1 : Seg := [false, false, false, false, false, true, false]

/-- Minus glyph pattern for position 2. Modelled from the spec: only the
middle segment lit (the segment that distinguishes `8` from `0` in `frame2`). -/
def minusGlyph2 : Seg := [false, false, false, false, true, false, false]

/-- One animation-block pattern. Modelled from the spec: a contiguous block
of 12 animation frames follows the reserved symbols (the code addresses them
as indices `idx + 12`); their exact segment content is deployment-specific,
modelled here as a rotating single lit segment. -/
def animGlyph (pos k : Nat) : Seg :=
  (List.range 7).map (fun s => s == (k + pos) % 7)

/-- Full symbol table `DIGIT_1` (position 1): digits 0–9, NULL, minus glyph,
then the 12-frame animation block. -/
def DIGIT_1 : List Seg :=
  frame1 ++ [minusGlyph1] ++ (List.range 12).map (animGlyph 0)

/-- Full symbol table `DIGIT_2` (position 2): digits 0–9, NULL, minus glyph,
then the 12-frame animation block. -/
def DIGIT_2 : List Seg :=
  frame2 ++ [minusGlyph2] ++ (List.range 12).map (animGlyph 1)

/-- The four arguments of one `sendBitsArray` call: the two segment patterns,
the sign bit and the unit-indicator (celsius) bit. -/
structure Frame where
  d1 : Seg
  d2 : Seg
  minus : Bool
  celsius : Bool
deriving DecidableEq, Repr

/-- `setOutdoorDisplay(int)`: the numeric encoder. Returns the `Frame`
handed to `sendBitsArray`, or `none` if a table access would be out of
bounds (undefined behaviour in the C++). -/
def setOutdoorDisplayNum (num : Int) : Option Frame :=
  let minus := num < 0
  let n : Nat := num.natAbs
  let digit2 : Nat := n % 10
  let digit1 : Nat := if n / 10 = 0 then DISPLAY_NULL_IDX else n / 10
  let p := if minus ∧ 0 < n ∧ n < 10
           then (false, DISPLAY_SIGN_MINUS_IDX) else (minus, digit1)
  (DIGIT_1.get? p.2).bind fun s1 =>
    (DIGIT_2.get? digit2).map fun s2 =>
      { d1 := s1, d2 := s2, minus := p.1, celsius := true }

/-- Decoding a frame via the symbol table: look each pattern up in its
table, then invert the numeric encoding rule. -/
def decodeFrame (fr : Frame) : Option Int :=
  match DIGIT_1.findIdx? (fun s => s = fr.d1),
        DIGIT_2.findIdx? (fun s => s = fr.d2) with
  | some i1, some i2 =>
    if i2 ≤ 9 then
      if i1 = DISPLAY_SIGN_MINUS_IDX then some (-(i2 : Int))
      else
        let tens : Nat := if i1 = DISPLAY_NULL_IDX then 0 else i1
        if tens ≤ 9 then
          some (if fr.minus then -(10 * tens + i2 : Int) else (10 * tens + i2 : Int))
        else none
    else none
  | _, _ => none

/-! ### Line driver and serial frame transmitter

The three lines are driven only through `setPinLow` (pinMode OUTPUT +
digitalWrite LOW: drive the line low) and `setPinHigh` (pinMode INPUT:
release, the pull-up takes the line high).  A transmission is modelled as
the trace of these primitive calls together with the busy-wait delays. -/

/-- The three display lines. -/
inductive Pin | latch | data | clock
deriving DecidableEq, Repr

/-- One primitive action of the driver: drive a line low (`setPinLow`),
release it (`setPinHigh`), or busy-wait for `n` microseconds. -/
inductive Ev
  | driveLow (p : Pin)
  | release  (p : Pin)
  | waitUs   (n : Nat)
deriving DecidableEq, Repr

/-- `setDataBit(bit)`: bit ≠ 0 wants the line high (release), else drive low. -/
def setDataBitTrace (b : Bool) : List Ev :=
  if b then [Ev.release Pin.data] else [Ev.driveLow Pin.data]

/-- `pulseClock()`: release the clock for 5 µs, drive it low for 5 µs. -/
def pulseClockTrace : List Ev :=
  [Ev.release Pin.clock, Ev.waitUs 5, Ev.driveLow Pin.clock, Ev.waitUs 5]

/-- `pulseLatch()`: the exact primitive sequence of the source function
(release 2 µs, drive low 8 µs, release 4 µs, drive low). -/
def pulseLatchTrace : List Ev :=
  [Ev.release Pin.latch, Ev.waitUs 2,
   Ev.driveLow Pin.latch, Ev.waitUs 8,
   Ev.release Pin.latch, Ev.waitUs 4,
   Ev.driveLow Pin.latch]

/-- The per-bit block of `sendBitsArray`: set the data bit, 1 µs setup, clock. -/
def bitBlock (b : Bool) : List Ev :=
  setDataBitTrace b ++ [Ev.waitUs 1] ++ pulseClockTrace

/-- `sendBitsArray(digit1, digit2, minus, celsius)`: the full event trace. -/
def sendBitsArrayTrace (d1 d2 : Seg) (minus celsius : Bool) : List Ev :=
  [Ev.driveLow Pin.latch, Ev.waitUs 4]
  ++ (d1.map bitBlock).flatten
  ++ (d2.map bitBlock).flatten
  ++ bitBlock minus
  ++ bitBlock celsius
  ++ pulseLatchTrace
  ++ [Ev.release Pin.data]

/-- Data-line level after one event (`true` = released/high, the idle state). -/
def dataLevelStep (lvl : Bool) : Ev → Bool
  | Ev.driveLow Pin.data => false
  | Ev.release Pin.data => true
  | _ => lvl

/-- Data-line level after a whole trace. -/
def dataLevelAfter (lvl : Bool) (es : List Ev) : Bool :=
  es.foldl dataLevelStep lvl

/-- The bits the receiving shift register sees: the data-line level at each
rising clock edge (`release clock`). -/
def clockedBitsAux (lvl : Bool) : List Ev → List Bool
  | [] => []
  | Ev.release Pin.clock :: es => lvl :: clockedBitsAux lvl es
  | e :: es => clockedBitsAux (dataLevelStep lvl e) es

/-- Bits clocked out by a trace, starting from the idle (released) data line. -/
def clockedBits (es : List Ev) : List Bool := clockedBitsAux true es

/-- Number of clock pulses (falling edges `driveLow clock`) in a trace. -/
def clockPulses (es : List Ev) : Nat :=
  es.countP (fun e => e = Ev.driveLow Pin.clock)

/-- The drive/release actions a trace applies to the latch line, in order. -/
def latchActs (es : List Ev) : List Bool :=
  es.filterMap (fun e =>
    match e with
    | Ev.driveLow Pin.latch => some false
    | Ev.release Pin.latch => some true
    | _ => none)

/-- The latch actions of a trace paired with the dwell that follows each
(the `waitUs` immediately after; 0 if none). `true` = release, `false` = drive low. -/
def latchProfile : List Ev → List (Bool × Nat)
  | [] => []
  | Ev.driveLow Pin.latch :: Ev.waitUs n :: es => (false, n) :: latchProfile es
  | Ev.driveLow Pin.latch :: es => (false, 0) :: latchProfile es
  | Ev.release Pin.latch :: Ev.waitUs n :: es => (true, n) :: latchProfile es
  | Ev.release Pin.latch :: es => (true, 0) :: latchProfile es
  | _ :: es => latchProfile es

/-! ### Fixed tokens, animation entry point, session and web handler -/

/-- `setOutdoorDisplay(const String&)`: the fixed-token entry point.
Returns the frame handed to `sendBitsArray`, or `none` for an unmatched
token (the function falls through without transmitting). -/
def setOutdoorDisplayStr (data : String) : Option Frame :=
  if data = "NULL" then
    some { d1 := DIGIT_1.getD DISPLAY_NULL_IDX [], d2 := DIGIT_2.getD DISPLAY_NULL_IDX [],
           minus := false, celsius := true }
  else if data = "--" then
    some { d1 := DIGIT_1.getD DISPLAY_SIGN_MINUS_IDX [], d2 := DIGIT_2.getD DISPLAY_SIGN_MINUS_IDX [],
           minus := false, celsius := true }
  else if data = "01" then
    some { d1 := DIGIT_1.getD 0 [], d2 := DIGIT_2.getD 1 [], minus := false, celsius := false }
  else if data = "02" then
    some { d1 := DIGIT_1.getD 0 [], d2 := DIGIT_2.getD 2 [], minus := false, celsius := false }
  else if data = "03" then
    some { d1 := DIGIT_1.getD 0 [], d2 := DIGIT_2.getD 3 [], minus := false, celsius := false }
  else if data = "04" then
    some { d1 := DIGIT_1.getD 0 [], d2 := DIGIT_2.getD 4 [], minus := false, celsius := false }
  else if data = "05" then
    some { d1 := DIGIT_1.getD 0 [], d2 := DIGIT_2.getD 5 [], minus := false, celsius := false }
  else if data = "06" then
    some { d1 := DIGIT_1.getD 0 [], d2 := DIGIT_2.getD 6 [], minus := false, celsius := false }
  else if data = "99" then
    some { d1 := DIGIT_1.getD 9 [], d2 := DIGIT_2.getD 9 [], minus := false, celsius := false }
  else none

/-- `setOutdoorDisplay_animate(idx)`: look up entries `idx + 12` of both
tables; `none` when the access is out of bounds. -/
def setOutdoorDisplay_animate (idx : Nat) : Option Frame :=
  (DIGIT_1.get? (idx + 12)).bind fun s1 =>
    (DIGIT_2.get? (idx + 12)).map fun s2 =>
      { d1 := s1, d2 := s2, minus := false, celsius := false }

/-- `validateTemp(t)`: the plausibility filter `t >= -60.0f && t <= 99.0f`. -/
def validateTemp (t : ℚ) : Bool :=
  decide ((-60 : ℚ) ≤ t) && decide (t ≤ (99 : ℚ))

/-- C++ float→int conversion: truncation toward zero. -/
def cppTrunc (q : ℚ) : Int := if q < 0 then ⌈q⌉ else ⌊q⌋

/-- The static state the `loop` body threads between passes: the last good
reading `currentTemp`, the error flag, the failure counter `retryCount`
and the animation index. -/
structure SessionState where
  currentTemp : ℚ
  isThermometerError : Bool
  retryCount : Nat
  animateIdx : Nat
deriving DecidableEq, Repr

/-- One fetch pass of `loop` (the body of the `every5Minuts || firstRun`
block): `t1`, `t2` are the values returned by the two
`getOutdoorTemperature` calls (the second is consulted only when the first
is invalid).  Returns the new state and the frame transmitted, if any. -/
def fetchRound (t1 t2 : ℚ) (st : SessionState) : SessionState × Option Frame :=
  let r := if validateTemp t1 then (false, t1)
           else if validateTemp t2 then (false, t2)
           else (true, t2)
  if r.1 then
    ({ st with isThermometerError := true, retryCount := st.retryCount + 1 }, none)
  else
    ({ st with currentTemp := r.2, isThermometerError := false,
               retryCount := 0, animateIdx := 0 },
     setOutdoorDisplayNum (cppTrunc r.2))

/-- The animation guard of `loop`: animate only on a device error after
more than 3 consecutive failed rounds. -/
def animShown (st : SessionState) : Bool :=
  st.isThermometerError && decide (st.retryCount > 3)

/-- One `everySecond` animation pass of `loop` (lines 134–138): when the
guard holds, transmit the current animation frame and advance the index
modulo 12. -/
def animTick (st : SessionState) : SessionState × Option Frame :=
  if animShown st then
    ({ st with animateIdx := (st.animateIdx + 1) % 12 },
     setOutdoorDisplay_animate st.animateIdx)
  else (st, none)

/-- Responses of the `/set` handler. -/
inductive SetResponse
  | missingTemp   -- 400 "Missing temp"
  | outOfRange    -- 400 "Out of range"
  | redirect      -- 302 to /
deriving DecidableEq, Repr

/-- `server_handleSet()`: `arg` is the parsed integer value of the `temp`
request argument (`none` when absent).  Returns the response, the new
session state and the frame transmitted, if any. -/
def server_handleSet (arg : Option Int) (st : SessionState) :
    SetResponse × SessionState × Option Frame :=
  match arg with
  | none => (SetResponse.missingTemp, st, none)
  | some temp =>
    if temp < -99 ∨ temp > 99 then (SetResponse.outOfRange, st, none)
    else (SetResponse.redirect,
          { st with currentTemp := (temp : ℚ) },
          setOutdoorDisplayNum (cppTrunc ((temp : Int) : ℚ)))

/-- `getOutdoorTemperature(url)`: the environment is abstracted as whether
WiFi is up, the HTTP status code, whether the payload has a
`"temperature"` field, and the value the field parses to. -/
def getOutdoorTemperature (wifiUp : Bool) (httpCode : Int)
    (hasTempField : Bool) (parsed : ℚ) : ℚ :=
  if ¬wifiUp then -102
  else if httpCode ≠ 200 then -101
  else if ¬hasTempField then -101
  else parsed

/-- A fetch attempt that failed (no WiFi, non-200 status, or missing field). -/
def fetchFailed (wifiUp : Bool) (httpCode : Int) (hasTempField : Bool) : Prop :=
  wifiUp = false ∨ httpCode ≠ 200 ∨ hasTempField = false

/-! ### Helper lemmas -/

/-- What claim C1 asserts of a single value `v`: encode–decode roundtrip,
sign-bit law, and the contents of the two digit positions. -/
abbrev NumRoundtrip (v : Int) : Prop :=
  (setOutdoorDisplayNum v).bind decodeFrame = some v ∧
  (setOutdoorDisplayNum v).map Frame.minus = some (decide (v ≤ -10)) ∧
  (setOutdoorDisplayNum v).map Frame.d2 = frame2.get? (v.natAbs % 10) ∧
  ((-9 ≤ v ∧ v ≤ -1) → (setOutdoorDisplayNum v).map Frame.d1 = some minusGlyph1) ∧
  ((0 ≤ v ∧ v ≤ 9) → (setOutdoorDisplayNum v).map Frame.d1 = frame1.get? DISPLAY_NULL_IDX) ∧
  ((v ≤ -10 ∨ 10 ≤ v) → (setOutdoorDisplayNum v).map Frame.d1 = frame1.get? (v.natAbs / 10))

set_option maxRecDepth 4000 in
lemma numRoundtrip_all : ∀ k : Fin 199, NumRoundtrip ((k : Int) - 99) := by decide

lemma fetchRound_invalid (t1 t2 : ℚ) (st : SessionState)
    (h1 : validateTemp t1 = false) (h2 : validateTemp t2 = false) :
    fetchRound t1 t2 st =
      ({ st with isThermometerError := true, retryCount := st.retryCount + 1 }, none) := by
  simp [fetchRound, h1, h2]

lemma cppTrunc_intCast (v : Int) : cppTrunc (v : ℚ) = v := by
  unfold cppTrunc
  split <;> simp

/-! ### Claim theorems -/

/-- C1: for every integer v in [-99, 99], `setOutdoorDisplay(int)` encodes v
so that decoding via the symbol table recovers v exactly; position 1 shows
the tens digit, the blank symbol when the tens digit is 0, or the minus
glyph for v in [-9, -1] (sign bit then off); position 2 shows the units
digit; the sign bit is asserted exactly when v ≤ -10. -/
theorem c1_numeric_roundtrip (v : Int) (h1 : -99 ≤ v) (h2 : v ≤ 99) :
    NumRoundtrip v := by
  have hk : (((v + 99).toNat : Nat) : Int) = v + 99 := Int.toNat_of_nonneg (by omega)
  have hlt : (v + 99).toNat < 199 := by omega
  have h := numRoundtrip_all ⟨(v + 99).toNat, hlt⟩
  have h3 : ((⟨(v + 99).toNat, hlt⟩ : Fin 199) : Int) - 99 = v := by
    simp only [Fin.val_mk] at h ⊢
    omega
  rwa [h3] at h

/-- Witness for C1 at v = -5: the minus glyph appears in position 1, digit 5
in position 2, the sign bit is off, and decoding returns -5. -/
theorem c1_numeric_roundtrip_witness :
    ((-99 : Int) ≤ -5 ∧ (-5 : Int) ≤ 99) ∧ NumRoundtrip (-5) :=
  ⟨by decide, c1_numeric_roundtrip (-5) (by decide) (by decide)⟩

/-- C2 counterexample: v = 100 is outside [-99, 99], yet `setOutdoorDisplay(int)`
does hand a frame to `sendBitsArray` (no rejection happens in the encoder);
worse, 100 is silently displayed with the same frame as 0. -/
theorem c2_counterexample :
    (setOutdoorDisplayNum 100).isSome = true ∧
    setOutdoorDisplayNum 100 = setOutdoorDisplayNum 0 := by decide

/-- C2 amended: the range check lives in the `/set` handler, not in the
encoder: for v outside [-99, 99] the handler answers 400 "Out of range",
leaves the state untouched and transmits nothing. -/
theorem c2_handler_rejects (v : Int) (st : SessionState)
    (h : v < -99 ∨ v > 99) :
    server_handleSet (some v) st = (SetResponse.outOfRange, st, none) := by
  simp [server_handleSet, h]

/-- Witness for amended C2 at v = 100. -/
theorem c2_handler_rejects_witness :
    ((100 : Int) < -99 ∨ (100 : Int) > 99) ∧
    server_handleSet (some 100) ⟨0, false, 0, 0⟩ =
      (SetResponse.outOfRange, ⟨0, false, 0, 0⟩, none) :=
  ⟨by decide, c2_handler_rejects 100 ⟨0, false, 0, 0⟩ (by decide)⟩

/-- C3 counterexample: the claimed latch sequence starts by driving the
line low and ends by releasing it; in `pulseLatch` the first primitive is
a release and the last is a drive-low (`true` = release, `false` = drive). -/
theorem c3_counterexample :
    ¬((latchActs pulseLatchTrace).head? = some false ∧
      (latchActs pulseLatchTrace).getLast? = some true) := by decide

/-- C3 amended: `pulseLatch` performs the claimed shape with drive and
release exchanged at every step: release (2 µs), drive low (8 µs),
release (4 µs), then drive low; and in `sendBitsArray` this latch pulse
comes after all the clocked bits, followed only by the data-line release. -/
theorem c3_latch_profile :
    latchProfile pulseLatchTrace = [(true, 2), (false, 8), (true, 4), (false, 0)] ∧
    ∀ d1 d2 m c, ∃ pre, sendBitsArrayTrace d1 d2 m c =
      pre ++ (pulseLatchTrace ++ [Ev.release Pin.data]) := by
  refine ⟨by decide, fun d1 d2 m c => ?_⟩
  refine ⟨[Ev.driveLow Pin.latch, Ev.waitUs 4]
    ++ (d1.map bitBlock).flatten ++ (d2.map bitBlock).flatten
    ++ bitBlock m ++ bitBlock c, ?_⟩
  simp [sendBitsArrayTrace]

/-- C4 counterexample: the fixed tokens "NULL" and "--" are rendered via
`setOutdoorDisplay(const String&)` with the unit-indicator bit asserted,
not suppressed. -/
theorem c4_counterexample :
    (setOutdoorDisplayStr "NULL").map Frame.celsius = some true ∧
    (setOutdoorDisplayStr "--").map Frame.celsius = some true := by decide

lemma celsius_all_of_bind (o1 o2 : Option Seg) (m b : Bool) :
    ((o1.bind fun s1 => o2.map fun s2 =>
        Frame.mk s1 s2 m b).all fun fr => fr.celsius == b) = true := by
  cases o1 <;> cases o2 <;> simp

/-- C4 amended: the unit-indicator (celsius) bit is asserted on every
numeric frame and on the fallback tokens "NULL" and "--", and suppressed
only on the error-code tokens ("01".."06", "99") and animation frames. -/
theorem c4_celsius_bit (v : Int) (s : String) (i : Nat) :
    (setOutdoorDisplayNum v).all (fun fr => fr.celsius == true) = true ∧
    (setOutdoorDisplayStr s).all
      (fun fr => fr.celsius == decide (s = "NULL" ∨ s = "--")) = true ∧
    (setOutdoorDisplay_animate i).all (fun fr => fr.celsius == false) = true := by
  refine ⟨?_, ?_, ?_⟩
  · exact celsius_all_of_bind _ _ _ true
  · unfold setOutdoorDisplayStr
    split_ifs with h1 h2 h3 h4 h5 h6 h7 h8 h9 <;> subst_vars <;> rfl
  · exact celsius_all_of_bind _ _ _ false

lemma clockedBitsAux_append (lvl : Bool) (xs ys : List Ev) :
    clockedBitsAux lvl (xs ++ ys) =
      clockedBitsAux lvl xs ++ clockedBitsAux (dataLevelAfter lvl xs) ys := by
  induction xs generalizing lvl with
  | nil => simp [clockedBitsAux, dataLevelAfter]
  | cons e xs ih =>
    cases e with
    | driveLow p =>
      cases p <;> simp [clockedBitsAux, dataLevelAfter, dataLevelStep, ih]
    | release p =>
      cases p <;> simp [clockedBitsAux, dataLevelAfter, dataLevelStep, ih]
    | waitUs n => simp [clockedBitsAux, dataLevelAfter, dataLevelStep, ih]

lemma clockedBitsAux_bitBlock (lvl b : Bool) :
    clockedBitsAux lvl (bitBlock b) = [b] := by
  cases b <;> rfl

lemma clockedBitsAux_blocks (l : List Bool) (lvl : Bool) :
    clockedBitsAux lvl ((l.map bitBlock).flatten) = l := by
  induction l generalizing lvl with
  | nil => rfl
  | cons b l ih =>
    simp only [List.map_cons, List.flatten_cons, clockedBitsAux_append,
      clockedBitsAux_bitBlock, ih]
    rfl

lemma clockPulses_append (xs ys : List Ev) :
    clockPulses (xs ++ ys) = clockPulses xs + clockPulses ys :=
  List.countP_append _ _ _

lemma clockPulses_bitBlock (b : Bool) : clockPulses (bitBlock b) = 1 := by
  cases b <;> rfl

lemma clockPulses_blocks (l : List Bool) :
    clockPulses ((l.map bitBlock).flatten) = l.length := by
  induction l with
  | nil => rfl
  | cons b l ih =>
    simp only [List.map_cons, List.flatten_cons, clockPulses_append,
      clockPulses_bitBlock, ih, List.length_cons]
    omega

/-- C5: every `sendBitsArray` call clocks out exactly 16 logical bits, one
clock pulse each, in the fixed order: the 7 segment bits of position 1,
the 7 segment bits of position 2, the sign bit, then the unit bit. -/
theorem c5_sixteen_bits_fixed_order (d1 d2 : Seg) (m c : Bool)
    (h1 : d1.length = 7) (h2 : d2.length = 7) :
    clockedBits (sendBitsArrayTrace d1 d2 m c) = d1 ++ d2 ++ [m, c] ∧
    (clockedBits (sendBitsArrayTrace d1 d2 m c)).length = 16 ∧
    clockPulses (sendBitsArrayTrace d1 d2 m c) = 16 := by
  have hbits : clockedBits (sendBitsArrayTrace d1 d2 m c) = d1 ++ d2 ++ [m, c] := by
    unfold clockedBits sendBitsArrayTrace
    simp only [clockedBitsAux_append, clockedBitsAux_blocks, clockedBitsAux_bitBlock]
    have hpre : ∀ lvl, clockedBitsAux lvl [Ev.driveLow Pin.latch, Ev.waitUs 4] = [] :=
      fun lvl => rfl
    have hlatch : ∀ lvl, clockedBitsAux lvl pulseLatchTrace = [] := fun lvl => rfl
    have hrel : ∀ lvl, clockedBitsAux lvl [Ev.release Pin.data] = [] := fun lvl => rfl
    simp [hpre, hlatch, hrel]
  refine ⟨hbits, ?_, ?_⟩
  · simp [hbits, h1, h2]
  · unfold sendBitsArrayTrace
    simp only [clockPulses_append, clockPulses_blocks, clockPulses_bitBlock, h1, h2]
    rfl

/-- Witness for C5 on the concrete frame of the number 24 (digit patterns
2 and 4): the 16 clocked bits are the two 7-bit patterns, the sign bit
and the unit bit, in order. -/
theorem c5_sixteen_bits_fixed_order_witness :
    ((frame1.getD 2 []).length = 7 ∧ (frame2.getD 4 []).length = 7) ∧
    (clockedBits (sendBitsArrayTrace (frame1.getD 2 []) (frame2.getD 4 []) false true) =
        frame1.getD 2 [] ++ frame2.getD 4 [] ++ [false, true] ∧
      (clockedBits (sendBitsArrayTrace (frame1.getD 2 []) (frame2.getD 4 []) false true)).length = 16 ∧
      clockPulses (sendBitsArrayTrace (frame1.getD 2 []) (frame2.getD 4 []) false true) = 16) :=
  ⟨by decide, c5_sixteen_bits_fixed_order _ _ false true (by decide) (by decide)⟩

/-- A run of consecutive fetch passes: fold `fetchRound` over the list of
fetched value pairs. -/
def runRounds (ts : List (ℚ × ℚ)) (st : SessionState) : SessionState :=
  ts.foldl (fun s p => (fetchRound p.1 p.2 s).1) st

lemma runRounds_invalid (ts : List (ℚ × ℚ)) (st : SessionState)
    (hinv : ∀ p ∈ ts, validateTemp p.1 = false ∧ validateTemp p.2 = false) :
    (runRounds ts st).retryCount = st.retryCount + ts.length ∧
    (runRounds ts st).currentTemp = st.currentTemp ∧
    (runRounds ts st).animateIdx = st.animateIdx ∧
    (ts ≠ [] → (runRounds ts st).isThermometerError = true) := by
  induction ts generalizing st with
  | nil => simp [runRounds]
  | cons p ts ih =>
    have hp := hinv p (by simp)
    have hstep : (fetchRound p.1 p.2 st).1 =
        { st with isThermometerError := true, retryCount := st.retryCount + 1 } := by
      rw [fetchRound_invalid p.1 p.2 st hp.1 hp.2]
    have hrest := ih { st with isThermometerError := true, retryCount := st.retryCount + 1 }
      (fun q hq => hinv q (by simp [hq]))
    have hrun : runRounds (p :: ts) st =
        runRounds ts { st with isThermometerError := true, retryCount := st.retryCount + 1 } := by
      simp [runRounds, hstep]
    rcases ts with _ | ⟨q, ts⟩
    · refine ⟨?_, ?_, ?_, fun _ => ?_⟩ <;> simp [hrun, runRounds, hstep]
    · obtain ⟨hr, hc, ha, he⟩ := hrest
      refine ⟨?_, ?_, ?_, fun _ => ?_⟩ <;>
        (simp only [hrun, hr, hc, ha, he (by simp), List.length_cons]; all_goals omega)

lemma anim_isSome (i : Nat) (h : i < 12) :
    (setOutdoorDisplay_animate i).isSome = true := by
  have key : ∀ k : Fin 12, (setOutdoorDisplay_animate k).isSome = true := by decide
  exact key ⟨i, h⟩

/-- C6: the session's failure threshold is N = 4: from a just-reset state
(counter 0 after an accepted reading), any 3 or fewer consecutive invalid
fetch rounds leave the error animation unshown (the animation pass
transmits nothing), while a 4th consecutive invalid round makes the
animation pass transmit an animation frame. -/
theorem c6_failure_threshold (st : SessionState) (ts : List (ℚ × ℚ))
    (hreset : st.retryCount = 0) (_herr : st.isThermometerError = false)
    (hidx : st.animateIdx < 12)
    (hinv : ∀ p ∈ ts, validateTemp p.1 = false ∧ validateTemp p.2 = false) :
    (ts.length ≤ 3 → animShown (runRounds ts st) = false ∧
      (animTick (runRounds ts st)).2 = none) ∧
    (ts.length = 4 → animShown (runRounds ts st) = true ∧
      (animTick (runRounds ts st)).2 ≠ none) := by
  obtain ⟨hr, _, ha, he⟩ := runRounds_invalid ts st hinv
  constructor
  · intro hlen
    have hshown : animShown (runRounds ts st) = false := by
      simp only [animShown, Bool.and_eq_false_iff, decide_eq_false_iff_not]
      right
      omega
    exact ⟨hshown, by simp [animTick, hshown]⟩
  · intro hlen
    have hne : ts ≠ [] := by
      intro hnil
      rw [hnil] at hlen
      simp at hlen
    have hshown : animShown (runRounds ts st) = true := by
      simp only [animShown, he hne, Bool.true_and, decide_eq_true_eq]
      omega
    refine ⟨hshown, ?_⟩
    have hsome : (setOutdoorDisplay_animate (runRounds ts st).animateIdx).isSome = true :=
      anim_isSome _ (by rw [ha]; omega)
    simp only [animTick, hshown, if_true]
    exact fun hnone => by simp [hnone] at hsome

/-- Witness for C6: from the reset state, three rounds of sentinel
readings do not show the animation, a fourth does. -/
theorem c6_failure_threshold_witness :
    ((⟨0, false, 0, 0⟩ : SessionState).retryCount = 0 ∧
      (⟨0, false, 0, 0⟩ : SessionState).isThermometerError = false ∧
      (⟨0, false, 0, 0⟩ : SessionState).animateIdx < 12 ∧
      (∀ p ∈ [((-101 : ℚ), (-101 : ℚ)), (-101, -101), (-101, -101), (-101, -101)],
        validateTemp p.1 = false ∧ validateTemp p.2 = false)) ∧
    (([((-101 : ℚ), (-101 : ℚ)), (-101, -101), (-101, -101), (-101, -101)].length ≤ 3 →
        animShown (runRounds [((-101 : ℚ), (-101 : ℚ)), (-101, -101), (-101, -101), (-101, -101)]
          ⟨0, false, 0, 0⟩) = false ∧
        (animTick (runRounds [((-101 : ℚ), (-101 : ℚ)), (-101, -101), (-101, -101), (-101, -101)]
          ⟨0, false, 0, 0⟩)).2 = none) ∧
      ([((-101 : ℚ), (-101 : ℚ)), (-101, -101), (-101, -101), (-101, -101)].length = 4 →
        animShown (runRounds [((-101 : ℚ), (-101 : ℚ)), (-101, -101), (-101, -101), (-101, -101)]
          ⟨0, false, 0, 0⟩) = true ∧
        (animTick (runRounds [((-101 : ℚ), (-101 : ℚ)), (-101, -101), (-101, -101), (-101, -101)]
          ⟨0, false, 0, 0⟩)).2 ≠ none)) :=
  ⟨⟨rfl, rfl, by decide, by decide⟩,
    c6_failure_threshold ⟨0, false, 0, 0⟩ _ rfl rfl (by decide) (by decide)⟩

/-- C7: an invalid pair of fetch outcomes (both outside the plausibility
filter) leaves the stored reading `currentTemp` unchanged, transmits no
frame, and raises the error flag; `currentTemp` is replaced only when a
fetched value passes `validateTemp`. -/
theorem c7_invalid_preserves_reading (t1 t2 : ℚ) (st : SessionState)
    (h1 : validateTemp t1 = false) (h2 : validateTemp t2 = false) :
    (fetchRound t1 t2 st).1.currentTemp = st.currentTemp ∧
    (fetchRound t1 t2 st).2 = none ∧
    (fetchRound t1 t2 st).1.isThermometerError = true := by
  rw [fetchRound_invalid t1 t2 st h1 h2]
  exact ⟨rfl, rfl, rfl⟩

/-- Witness for C7 on the two fetch-failure sentinels. -/
theorem c7_invalid_preserves_reading_witness :
    (validateTemp (-101) = false ∧ validateTemp (-102) = false) ∧
    ((fetchRound (-101) (-102) ⟨21, false, 0, 5⟩).1.currentTemp =
        (⟨21, false, 0, 5⟩ : SessionState).currentTemp ∧
      (fetchRound (-101) (-102) ⟨21, false, 0, 5⟩).2 = none ∧
      (fetchRound (-101) (-102) ⟨21, false, 0, 5⟩).1.isThermometerError = true) :=
  ⟨by decide, c7_invalid_preserves_reading (-101) (-102) ⟨21, false, 0, 5⟩ (by decide) (by decide)⟩

/-- C8 counterexample: the override -80 is accepted by the `/set` handler
and transmitted as a numeric frame, but a fetch of the same value is
rejected by the plausibility filter and transmits nothing, so their
display frames differ. -/
theorem c8_counterexample :
    (server_handleSet (some (-80)) ⟨0, false, 0, 0⟩).2.2 ≠
      (fetchRound (-80) (-80) ⟨0, false, 0, 0⟩).2 ∧
    (server_handleSet (some (-80)) ⟨0, false, 0, 0⟩).2.2.isSome = true ∧
    (fetchRound (-80) (-80) ⟨0, false, 0, 0⟩).2 = none := by decide

/-- C8 amended: for an override v inside the plausibility range [-60, 99],
the handler stores v in `currentTemp` and renders it through the numeric
encoder, and a fetch round returning v stores the same value and
transmits the identical frame; for accepted values in [-99, -61] the
handler still stores and renders v, but a fetch of the same value would
be treated as invalid. -/
theorem c8_override_matches_fetch (v : Int) (t2 : ℚ) (st : SessionState)
    (h1 : -60 ≤ v) (h2 : v ≤ 99) :
    server_handleSet (some v) st =
      (SetResponse.redirect, { st with currentTemp := (v : ℚ) }, setOutdoorDisplayNum v) ∧
    (fetchRound (v : ℚ) t2 st).2 = setOutdoorDisplayNum v ∧
    (fetchRound (v : ℚ) t2 st).1.currentTemp = (v : ℚ) := by
  have hrange : ¬(v < -99 ∨ v > 99) := by omega
  have hvalid : validateTemp (v : ℚ) = true := by
    simp only [validateTemp, Bool.and_eq_true, decide_eq_true_eq]
    constructor
    · calc ((-60 : ℚ)) = ((-60 : Int) : ℚ) := by norm_num
        _ ≤ (v : ℚ) := by exact_mod_cast h1
    · calc (v : ℚ) ≤ ((99 : Int) : ℚ) := by exact_mod_cast h2
        _ = (99 : ℚ) := by norm_num
  refine ⟨?_, ?_, ?_⟩
  · simp [server_handleSet, hrange, cppTrunc_intCast]
  · simp [fetchRound, hvalid, cppTrunc_intCast]
  · simp [fetchRound, hvalid]

/-- Witness for amended C8 at v = 24. -/
theorem c8_override_matches_fetch_witness :
    ((-60 : Int) ≤ 24 ∧ (24 : Int) ≤ 99) ∧
    (server_handleSet (some 24) ⟨0, false, 0, 0⟩ =
        (SetResponse.redirect, { (⟨0, false, 0, 0⟩ : SessionState) with currentTemp := ((24 : Int) : ℚ) },
          setOutdoorDisplayNum 24) ∧
      (fetchRound ((24 : Int) : ℚ) 0 ⟨0, false, 0, 0⟩).2 = setOutdoorDisplayNum 24 ∧
      (fetchRound ((24 : Int) : ℚ) 0 ⟨0, false, 0, 0⟩).1.currentTemp = ((24 : Int) : ℚ)) :=
  ⟨by decide, c8_override_matches_fetch 24 0 ⟨0, false, 0, 0⟩ (by decide) (by decide)⟩

/-- The session's animation index after n animation passes, starting from
the reset value 0: the source updates it as `(animate_idx + 1) % 12`. -/
def sessionAnimIdx : Nat → Nat
  | 0 => 0
  | n + 1 => (sessionAnimIdx n + 1) % 12

lemma sessionAnimIdx_eq_mod (n : Nat) : sessionAnimIdx n = n % 12 := by
  induction n with
  | zero => rfl
  | succ n ih =>
    show (sessionAnimIdx n + 1) % 12 = (n + 1) % 12
    rw [ih]
    omega

/-- C9: the displayed animation frame is periodic with period 12: the
frame transmitted at animation pass i equals the one at pass i + 12, so
step 12 shows the same frame as step 0. -/
theorem c9_animation_period_twelve (i : Nat) :
    setOutdoorDisplay_animate (sessionAnimIdx (i + 12)) =
      setOutdoorDisplay_animate (sessionAnimIdx i) := by
  rw [sessionAnimIdx_eq_mod, sessionAnimIdx_eq_mod, Nat.add_mod_right]

/-- C10: every failure return of `getOutdoorTemperature` (no WiFi,
non-200 status, or missing temperature field) is the sentinel -101 or
-102, is at most -100, and fails the plausibility filter, so a failed
fetch is never accepted as a reading: a fetch round seeing only such
outcomes leaves `currentTemp` unchanged and transmits nothing. -/
theorem c10_failure_sentinels (wifiUp : Bool) (httpCode : Int)
    (hasTempField : Bool) (parsed : ℚ) (st : SessionState)
    (h : fetchFailed wifiUp httpCode hasTempField) :
    (getOutdoorTemperature wifiUp httpCode hasTempField parsed = -101 ∨
      getOutdoorTemperature wifiUp httpCode hasTempField parsed = -102) ∧
    getOutdoorTemperature wifiUp httpCode hasTempField parsed ≤ -100 ∧
    validateTemp (getOutdoorTemperature wifiUp httpCode hasTempField parsed) = false ∧
    (fetchRound (getOutdoorTemperature wifiUp httpCode hasTempField parsed)
        (getOutdoorTemperature wifiUp httpCode hasTempField parsed) st).1.currentTemp =
      st.currentTemp ∧
    (fetchRound (getOutdoorTemperature wifiUp httpCode hasTempField parsed)
        (getOutdoorTemperature wifiUp httpCode hasTempField parsed) st).2 = none := by
  have hval : getOutdoorTemperature wifiUp httpCode hasTempField parsed = -101 ∨
      getOutdoorTemperature wifiUp httpCode hasTempField parsed = -102 := by
    cases wifiUp with
    | false =>
      right
      simp [getOutdoorTemperature]
    | true =>
      left
      rcases h with h | h | h
      · exact absurd h (by simp)
      · simp [getOutdoorTemperature, h]
      · by_cases hc : httpCode = 200
        · simp [getOutdoorTemperature, hc, h]
        · simp [getOutdoorTemperature, hc]
  have hle : getOutdoorTemperature wifiUp httpCode hasTempField parsed ≤ -100 := by
    rcases hval with hv | hv <;> rw [hv] <;> norm_num
  have hvt : validateTemp (getOutdoorTemperature wifiUp httpCode hasTempField parsed) = false := by
    rcases hval with hv | hv <;> rw [hv] <;> decide
  refine ⟨hval, hle, hvt, ?_, ?_⟩ <;>
    rw [fetchRound_invalid _ _ _ hvt hvt]

/-- Witness for C10: WiFi down, everything else healthy, yields the -102
sentinel, which fails the filter and leaves the session reading untouched. -/
theorem c10_failure_sentinels_witness :
    fetchFailed false 200 true ∧
    ((getOutdoorTemperature false 200 true 0 = -101 ∨
        getOutdoorTemperature false 200 true 0 = -102) ∧
      getOutdoorTemperature false 200 true 0 ≤ -100 ∧
      validateTemp (getOutdoorTemperature false 200 true 0) = false ∧
      (fetchRound (getOutdoorTemperature false 200 true 0)
          (getOutdoorTemperature false 200 true 0) ⟨7, false, 0, 0⟩).1.currentTemp =
        (⟨7, false, 0, 0⟩ : SessionState).currentTemp ∧
      (fetchRound (getOutdoorTemperature false 200 true 0)
          (getOutdoorTemperature false 200 true 0) ⟨7, false, 0, 0⟩).2 = none) :=
  ⟨Or.inl rfl, c10_failure_sentinels false 200 true 0 ⟨7, false, 0, 0⟩ (Or.inl rfl)⟩

end Bluepunkt
